import Mathlib

/-!
# Verification of the clinic-scheduler shift-scheduling core

A shallow embedding of the scheduling core of the `clinic-scheduler`
repository (`src/data/models.py`, `src/scheduler/constraints.py`,
`src/scheduler/ortools_scheduler.py`, and the availability-string parser of
`src/data/sheets_manager.py`), together with theorems settling the frozen
claims about its specification.

Conventions of the embedding:
* A Python `datetime.date` is represented by its proleptic Gregorian ordinal
  (`date.toordinal()`), a natural number.  Ordinal 1 is a Monday, so
  `date.weekday()` (Monday = 0) is `(d - 1) % 7`.
* Python `dict`s keyed by weekday are represented as association lists with
  first-match lookup; insertion overwrites an existing key.
* All staffing counts are natural numbers (the spec's invariant: counts ≥ 0),
  so Python's floor division `//` coincides with `Nat` division `/`.
* The external CP-SAT solver is not part of the repository; the model the
  code posts to it is embedded as an executable satisfaction predicate over a
  0/1 assignment, and the solver's outcome is an explicit parameter where the
  code branches on it.
-/

/-- A Python `datetime.date`, as its proleptic Gregorian ordinal
(`date.toordinal()`).  Ordinal 1 (0001-01-01) is a Monday. -/
abbrev Date := Nat

/-- Python `date.weekday()`: 0 = Monday, ..., 6 = Sunday. -/
def weekday (d : Date) : Nat := (d - 1) % 7

/-- `date - timedelta(days=date.weekday())`: the Monday of the week of `d`
(used by `constraints.py` as the week key, and equivalent — as a grouping
key — to `date.isocalendar()[:2]`, since an ISO (year, week) pair is
determined by and determines the week's Monday). -/
def week_start (d : Date) : Date := d - weekday d

/-- `Employee` from `src/data/models.py`.  `available_shifts` is the
`Dict[int, List[str]]` of weekday (1 = Monday) to shift-time labels,
embedded as an association list. -/
structure Employee where
  name : String
  is_leader : Bool
  can_inject : Bool
  available_shifts : List (Int × List String)
  is_fulltime : Bool
deriving DecidableEq

/-- First-match lookup in an association list (Python `dict` read;
`dict_insert` below keeps keys unique). -/
def dict_get (l : List (Int × List String)) (k : Int) : Option (List String) :=
  match l.find? (fun p => p.1 == k) with
  | some p => some p.2
  | none => none

/-- Python `dict` assignment: overwrite the value at an existing key,
otherwise append the binding. -/
def dict_insert (l : List (Int × List String)) (k : Int) (v : List String) :
    List (Int × List String) :=
  if l.any (fun p => p.1 == k) then
    l.map (fun p => if p.1 == k then (k, v) else p)
  else
    l ++ [(k, v)]

/-- `Employee.can_work_on` from `src/data/models.py`: membership of the
shift-time in the day's availability list; an absent weekday key means
unavailable. -/
def Employee.can_work_on (e : Employee) (day_of_week : Int)
    (shift_time : String) : Bool :=
  match dict_get e.available_shifts day_of_week with
  | none => false
  | some shifts => shifts.contains shift_time

/-- `ShiftRequirement` from `src/data/models.py`. -/
structure ShiftRequirement where
  day_of_week : Nat
  shift_time : String
  num_people : Nat
  num_leaders : Nat
  num_injectors : Nat
  num_leader_or_injector : Nat
deriving DecidableEq

/-- `TimeOffRequest` from `src/data/models.py`. -/
structure TimeOffRequest where
  employee_name : String
  date : Date
  shift_time : String
deriving DecidableEq

/-- `PreAssignedShift` from `src/data/models.py`. -/
structure PreAssignedShift where
  employee_name : String
  date : Date
  shift_time : String
deriving DecidableEq

/-- `Shift` from `src/data/models.py`. -/
structure Shift where
  date : Date
  shift_time : String
  assigned_employees : List Employee
deriving DecidableEq

/-- `Shift.has_employee`. -/
def Shift.has_employee (s : Shift) (employee_name : String) : Bool :=
  s.assigned_employees.any (fun emp => emp.name == employee_name)

/-- `Shift.count_leaders`. -/
def Shift.count_leaders (s : Shift) : Nat :=
  (s.assigned_employees.filter (fun emp => emp.is_leader)).length

/-- `Shift.count_injectors`. -/
def Shift.count_injectors (s : Shift) : Nat :=
  (s.assigned_employees.filter (fun emp => emp.can_inject)).length

/-- `Shift.count_leader_or_injector`. -/
def Shift.count_leader_or_injector (s : Shift) : Nat :=
  (s.assigned_employees.filter (fun emp => emp.is_leader || emp.can_inject)).length

/-- `Schedule` from `src/data/models.py`. -/
structure Schedule where
  shifts : List Shift
deriving DecidableEq

/-- The `for` loop of `Schedule.get_shift`: return the first matching shift,
else fall through to `None`. -/
def get_shift_loop (shifts : List Shift) (target_date : Date)
    (shift_time : String) : Option Shift :=
  match shifts with
  | [] => none
  | sh :: rest =>
    if sh.date == target_date && sh.shift_time == shift_time then some sh
    else get_shift_loop rest target_date shift_time

/-- `Schedule.get_shift` from `src/data/models.py`: first shift matching the
date and shift-time, `None` if absent. -/
def Schedule.get_shift (schedule : Schedule) (target_date : Date)
    (shift_time : String) : Option Shift :=
  get_shift_loop schedule.shifts target_date shift_time

/-- `Schedule.get_employee_shifts`. -/
def Schedule.get_employee_shifts (schedule : Schedule)
    (employee_name : String) : List Shift :=
  schedule.shifts.filter (fun sh => sh.has_employee employee_name)

/-- `validate_shift_requirements` from `src/scheduler/constraints.py`,
with its chain of early `return False`s. -/
def validate_shift_requirements (shift : Shift)
    (requirement : ShiftRequirement) (relaxed : Bool) : Bool :=
  if shift.assigned_employees.length != requirement.num_people then false
  else if (if relaxed then shift.count_leaders < requirement.num_leaders / 2
           else shift.count_leaders < requirement.num_leaders) then false
  else if (if relaxed then shift.count_injectors < requirement.num_injectors / 2
           else shift.count_injectors < requirement.num_injectors) then false
  else if (if relaxed then
             shift.count_leader_or_injector < requirement.num_leader_or_injector / 2
           else
             shift.count_leader_or_injector < requirement.num_leader_or_injector) then false
  else true

/-- The week keys of an employee's shifts in a schedule: the distinct
`week_start`s of the dates of the shifts returned by `get_employee_shifts`
(the key set of the `weekly_shifts` grouping in
`validate_fulltime_constraints`). -/
def employee_week_keys (schedule : Schedule) (employee_name : String) :
    List Date :=
  ((schedule.get_employee_shifts employee_name).map
    (fun s => week_start s.date)).dedup

/-- One group of the `weekly_shifts` grouping: the employee's shifts whose
week starts at `wk`. -/
def employee_week_shifts (schedule : Schedule) (employee_name : String)
    (wk : Date) : List Shift :=
  (schedule.get_employee_shifts employee_name).filter
    (fun s => week_start s.date == wk)

/-- The `work_days` set of `validate_fulltime_constraints` for one week:
the distinct dates of the employee's shifts in that week. -/
def employee_week_days (schedule : Schedule) (employee_name : String)
    (wk : Date) : List Date :=
  ((employee_week_shifts schedule employee_name wk).map (fun s => s.date)).dedup

/-- The `days_off` count of `validate_fulltime_constraints` for one week:
among the seven dates of the week starting at `wk`, those not in
`work_days`. -/
def week_days_off (schedule : Schedule) (employee_name : String)
    (wk : Date) : Nat :=
  (((List.range 7).map (fun i => wk + i)).filter
    (fun d => !((employee_week_days schedule employee_name wk).contains d))).length

/-- `validate_fulltime_constraints` from `src/scheduler/constraints.py`:
vacuous for part-time; otherwise every week holding at least one of the
employee's shifts must have the required weekly count and days off. -/
def validate_fulltime_constraints (schedule : Schedule) (employee : Employee)
    (relaxed_shifts : Bool) (relaxed_days_off : Bool) : Bool :=
  if !employee.is_fulltime then true
  else
    (employee_week_keys schedule employee.name).all (fun wk =>
      let n := (employee_week_shifts schedule employee.name wk).length
      let count_ok : Bool :=
        if relaxed_shifts then !(n < 8 || n > 10) else n == 10
      let days_off := week_days_off schedule employee.name wk
      let days_ok : Bool :=
        if relaxed_days_off then !(days_off < 1) else days_off == 2
      count_ok && days_ok)

/-- `validate_availability` from `src/scheduler/constraints.py`: the
employee can work that weekday/shift-time and no time-off record matches. -/
def validate_availability (shift : Shift) (employee : Employee)
    (time_off_requests : List TimeOffRequest) : Bool :=
  let day_of_week : Int := (weekday shift.date : Nat) + 1
  if !(employee.can_work_on day_of_week shift.shift_time) then false
  else if time_off_requests.any (fun request =>
      request.employee_name == employee.name &&
      request.date == shift.date &&
      request.shift_time == shift.shift_time) then false
  else true

/-- The mutable relaxation/configuration state of `ORToolsScheduler`
(`src/scheduler/ortools_scheduler.py`).  The CP-SAT `model`/`solver`
handles are external and are represented by the satisfaction predicate
`model_sat` and the `SolverOutcome` parameter below. -/
structure ORToolsScheduler where
  employees : List Employee
  requirements : List ShiftRequirement
  time_off_requests : List TimeOffRequest
  pre_assigned_shifts : List PreAssignedShift
  start_date : Date
  num_weeks : Nat
  max_time_seconds : Nat
  relaxed_requirements : Bool
  relaxed_shifts : Bool
  relaxed_days_off : Bool
deriving DecidableEq

/-- `ORToolsScheduler.relax_constraints`: overwrite all three relaxation
flags with the three arguments (each of which defaults to `False` in the
Python signature: a call that omits a flag passes `false` here). -/
def relax_constraints (sch : ORToolsScheduler) (requirements : Bool)
    (shifts : Bool) (days_off : Bool) : ORToolsScheduler :=
  { sch with
    relaxed_requirements := requirements
    relaxed_shifts := shifts
    relaxed_days_off := days_off }

/-- The fixed shift-time labels `["早", "中", "晚"]` (Morning, Midday,
Evening) of `generate_month_template`. -/
def shift_times : List String := ["早", "中", "晚"]

/-- `ORToolsScheduler.generate_month_template`: `num_weeks × 7 × 3` empty
slots in `(week, day, shift_time)` order, starting at `start_date`.  The
source performs no validation of `start_date`. -/
def generate_month_template (start_date : Date) (num_weeks : Nat) :
    List Shift :=
  (List.range num_weeks).flatMap (fun week =>
    (List.range 7).flatMap (fun day =>
      shift_times.map (fun st =>
        { date := start_date + 7 * week + day
          shift_time := st
          assigned_employees := [] })))

/-- The `requirement_map` built in `ORToolsScheduler.__init__`: a dict keyed
by `(day_of_week, shift_time)`, later rows overwriting earlier ones. -/
def requirement_map_get (requirements : List ShiftRequirement)
    (day_of_week : Nat) (shift_time : String) : Option ShiftRequirement :=
  requirements.foldl (fun acc req =>
    if req.day_of_week == day_of_week && req.shift_time == shift_time then
      some req
    else acc) none

/-- Satisfaction of the constraints posted by
`_add_availability_constraints`: wherever `validate_availability` is false,
the decision variable is pinned to 0. -/
def availability_constraints_sat (employees : List Employee)
    (shifts : List Shift) (time_off_requests : List TimeOffRequest)
    (x : Nat → Nat → Bool) : Bool :=
  (employees.enum).all (fun ep =>
    (shifts.enum).all (fun sp =>
      validate_availability sp.2 ep.2 time_off_requests || !(x ep.1 sp.1)))

/-- The `x[e*,s*] = 1` pins emitted by `_add_pre_assignment_constraints`:
for each pre-assignment, the first matching shift index and then the first
employee index with a matching name (both loops `break` after the first
match); a record whose date/shift-time or employee name matches nothing
contributes no pin. -/
def pre_assignment_pins (employees : List Employee) (shifts : List Shift)
    (pre_assigned_shifts : List PreAssignedShift) : List (Nat × Nat) :=
  pre_assigned_shifts.flatMap (fun pre =>
    match (shifts.enum).find? (fun sp =>
        sp.2.date == pre.date && sp.2.shift_time == pre.shift_time) with
    | none => []
    | some sp =>
      match (employees.enum).find? (fun ep => ep.2.name == pre.employee_name) with
      | none => []
      | some ep => [(ep.1, sp.1)])

/-- Satisfaction of the constraints posted by
`_add_pre_assignment_constraints`. -/
def pre_assignment_constraints_sat (employees : List Employee)
    (shifts : List Shift) (pre_assigned_shifts : List PreAssignedShift)
    (x : Nat → Nat → Bool) : Bool :=
  (pre_assignment_pins employees shifts pre_assigned_shifts).all
    (fun pin => x pin.1 pin.2)

/-- Sum of the 0/1 decision variables of one slot over a set of employee
indices. -/
def assigned_sum (indices : List Nat) (assigned : Nat → Bool) : Nat :=
  (indices.map (fun i => (assigned i).toNat)).sum

/-- Satisfaction of the constraints `_add_shift_requirement_constraints`
posts for one slot with a known requirement: headcount equals `num_people`
exactly, and each capability minimum (halved under
`relaxed_requirements`) holds — but a capability constraint is only posted
when its candidate pool of employees is non-empty (`if leader_assigned:`
etc.), so an empty pool yields no constraint. -/
def slot_requirement_sat (employees : List Employee)
    (requirement : ShiftRequirement) (relaxed_requirements : Bool)
    (assigned : Nat → Bool) : Bool :=
  let leader_indices :=
    ((employees.enum).filter (fun ep => ep.2.is_leader)).map (fun ep => ep.1)
  let injector_indices :=
    ((employees.enum).filter (fun ep => ep.2.can_inject)).map (fun ep => ep.1)
  let leader_or_injector_indices :=
    ((employees.enum).filter (fun ep => ep.2.is_leader || ep.2.can_inject)).map
      (fun ep => ep.1)
  let min_leaders :=
    if relaxed_requirements then requirement.num_leaders / 2
    else requirement.num_leaders
  let min_injectors :=
    if relaxed_requirements then requirement.num_injectors / 2
    else requirement.num_injectors
  let min_leader_or_injector :=
    if relaxed_requirements then requirement.num_leader_or_injector / 2
    else requirement.num_leader_or_injector
  (assigned_sum (List.range employees.length) assigned == requirement.num_people)
  && (leader_indices.isEmpty
      || decide (min_leaders ≤ assigned_sum leader_indices assigned))
  && (injector_indices.isEmpty
      || decide (min_injectors ≤ assigned_sum injector_indices assigned))
  && (leader_or_injector_indices.isEmpty
      || decide (min_leader_or_injector
          ≤ assigned_sum leader_or_injector_indices assigned))

/-- Satisfaction of the constraints posted by
`_add_shift_requirement_constraints`: slots whose `(weekday, shift_time)`
has no requirement row are skipped (`continue`). -/
def shift_requirement_constraints_sat (employees : List Employee)
    (requirements : List ShiftRequirement) (relaxed_requirements : Bool)
    (shifts : List Shift) (x : Nat → Nat → Bool) : Bool :=
  (shifts.enum).all (fun sp =>
    match requirement_map_get requirements (weekday sp.2.date + 1)
        sp.2.shift_time with
    | none => true
    | some req =>
      slot_requirement_sat employees req relaxed_requirements
        (fun e => x e sp.1))

/-- The `shifts_by_date` grouping used by `_add_daily_limit_constraints`
and `_add_objective`: for each distinct date, the template indices of that
date's slots. -/
def shifts_by_date (shifts : List Shift) : List (Date × List Nat) :=
  ((shifts.map (fun s => s.date)).dedup).map (fun d =>
    (d, ((shifts.enum).filter (fun sp => sp.2.date == d)).map (fun sp => sp.1)))

/-- Satisfaction of `_add_daily_limit_constraints`: every employee works at
most 3 slots per date. -/
def daily_limit_constraints_sat (employees : List Employee)
    (shifts : List Shift) (x : Nat → Nat → Bool) : Bool :=
  (List.range employees.length).all (fun e =>
    (shifts_by_date shifts).all (fun g =>
      decide (assigned_sum g.2 (fun s => x e s) ≤ 3)))

/-- Satisfaction of `_add_fulltime_weekly_constraints` for one full-time
employee and one week's slot indices: the weekly sum is exactly 10 (or in
[8,10] when `relaxed_shifts`), and the number of dates with at least one
assigned slot (the sum of the `is_working_on_day` indicators, which
`AddMaxEquality` pins to the OR of the day's variables) is at most 5 (or 6
when `relaxed_days_off`). -/
def fulltime_week_sat (week_slots : List (Nat × Shift))
    (relaxed_shifts : Bool) (relaxed_days_off : Bool)
    (assigned : Nat → Bool) : Bool :=
  let weekly_sum := assigned_sum (week_slots.map (fun p => p.1)) assigned
  let count_ok : Bool :=
    if relaxed_shifts then decide (8 ≤ weekly_sum) && decide (weekly_sum ≤ 10)
    else weekly_sum == 10
  let dates := (week_slots.map (fun p => p.2.date)).dedup
  let work_days :=
    (dates.filter (fun d =>
      (week_slots.filter (fun p => p.2.date == d)).any
        (fun p => assigned p.1))).length
  let days_ok : Bool :=
    if relaxed_days_off then decide (work_days ≤ 6)
    else decide (work_days ≤ 5)
  count_ok && days_ok

/-- Satisfaction of the constraints posted by
`_add_fulltime_weekly_constraints`: for every full-time employee and every
week of the template (the `isocalendar()[:2]` grouping, i.e. grouping by
the week's Monday). -/
def fulltime_weekly_constraints_sat (employees : List Employee)
    (shifts : List Shift) (relaxed_shifts : Bool) (relaxed_days_off : Bool)
    (x : Nat → Nat → Bool) : Bool :=
  let week_keys := (shifts.map (fun s => week_start s.date)).dedup
  (employees.enum).all (fun ep =>
    !ep.2.is_fulltime ||
    week_keys.all (fun wk =>
      fulltime_week_sat
        ((shifts.enum).filter (fun sp => week_start sp.2.date == wk))
        relaxed_shifts relaxed_days_off (fun s => x ep.1 s)))

/-- Satisfaction of the two linking constraints `_add_objective` posts for
one bonus variable `b` of an (employee, date) group with slot indices
`indices`:  `D ≥ 2·b` and `D ≤ 2 + (|indices| − 2)·(1 − b)` where `D` is
the employee's daily sum over the group. -/
def bonus_link_sat (indices : List Nat) (emp : Nat) (x : Nat → Nat → Bool)
    (b : Bool) : Bool :=
  let daily_sum := assigned_sum indices (fun s => x emp s)
  decide (2 * b.toNat ≤ daily_sum)
  && decide (daily_sum ≤ 2 + (indices.length - 2) * (1 - b.toNat))

/-- Satisfaction of all linking constraints posted by `_add_objective`:
one bonus variable per (employee, date) whose day has at least 2 slots
(days with fewer are skipped by `continue`). -/
def objective_constraints_sat (employees : List Employee)
    (shifts : List Shift) (x : Nat → Nat → Bool) (b : Nat → Date → Bool) :
    Bool :=
  (List.range employees.length).all (fun e =>
    (shifts_by_date shifts).all (fun g =>
      if g.2.length < 2 then true
      else bonus_link_sat g.2 e x (b e g.1)))

/-- The value of the maximized objective expression
`sum(bonus_vars) * 10` under a valuation of the bonus variables of the
(employee, date) groups in `entries`. -/
def objective_value (entries : List (Nat × Date)) (b : Nat → Date → Bool) :
    Nat :=
  (entries.map (fun ent => (b ent.1 ent.2).toNat)).sum * 10

/-- Satisfaction of the entire constraint model built by
`_add_constraints` and `_add_objective` on the template `shifts`, by a 0/1
assignment `x` of the decision variables and a valuation `b` of the bonus
variables. -/
def model_sat (sch : ORToolsScheduler) (shifts : List Shift)
    (x : Nat → Nat → Bool) (b : Nat → Date → Bool) : Bool :=
  availability_constraints_sat sch.employees shifts sch.time_off_requests x
  && pre_assignment_constraints_sat sch.employees shifts
      sch.pre_assigned_shifts x
  && shift_requirement_constraints_sat sch.employees sch.requirements
      sch.relaxed_requirements shifts x
  && daily_limit_constraints_sat sch.employees shifts x
  && fulltime_weekly_constraints_sat sch.employees shifts sch.relaxed_shifts
      sch.relaxed_days_off x
  && objective_constraints_sat sch.employees shifts x b

/-- The return statuses of `cp_model.CpSolver.Solve`. -/
inductive CpStatus where
  | Optimal
  | Feasible
  | Infeasible
  | ModelInvalid
  | Unknown
deriving DecidableEq

/-- `CpSolver.StatusName`. -/
def status_name : CpStatus → String
  | CpStatus.Optimal => "OPTIMAL"
  | CpStatus.Feasible => "FEASIBLE"
  | CpStatus.Infeasible => "INFEASIBLE"
  | CpStatus.ModelInvalid => "MODEL_INVALID"
  | CpStatus.Unknown => "UNKNOWN"

/-- The outcome of the external CP-SAT solve: the status, the solution
valuation of the decision variables (queried only on success), and the
solver statistics read for the diagnostics. -/
structure SolverOutcome where
  status : CpStatus
  value : Nat → Nat → Bool
  num_conflicts : Nat
  num_branches : Nat
  wall_time : Nat

/-- The diagnostics dict built by `generate_schedules`. -/
structure Diagnostics where
  solver_status : String
  solve_time : Nat
  num_conflicts : Nat
  num_branches : Nat
  wall_time : Nat
  relaxed_requirements : Bool
  relaxed_shifts : Bool
  relaxed_days_off : Bool
  valid_count : Nat
deriving DecidableEq

/-- `ORToolsScheduler._parse_solution`: for each template slot, the
employees whose decision variable is 1 in the solver's solution, in
employee input order. -/
def parse_solution (employees : List Employee) (shifts : List Shift)
    (value : Nat → Nat → Bool) : Schedule :=
  { shifts :=
      (shifts.enum).map (fun sp =>
        { date := sp.2.date
          shift_time := sp.2.shift_time
          assigned_employees :=
            ((employees.enum).filter (fun ep => value ep.1 sp.1)).map
              (fun ep => ep.2) }) }

/-- `ORToolsScheduler.generate_schedules`, with the external solve
represented by its `SolverOutcome` and the measured elapsed time by
`elapsed`: on `OPTIMAL` or `FEASIBLE` the parsed schedule is returned,
otherwise the schedule list stays empty; the diagnostics dict is built in
every case. -/
def generate_schedules (sch : ORToolsScheduler) (outcome : SolverOutcome)
    (elapsed : Nat) : List Schedule × Diagnostics :=
  let template_shifts := generate_month_template sch.start_date sch.num_weeks
  let valid_schedules : List Schedule :=
    if outcome.status = CpStatus.Optimal ∨ outcome.status = CpStatus.Feasible
    then [parse_solution sch.employees template_shifts outcome.value]
    else []
  (valid_schedules,
   { solver_status := status_name outcome.status
     solve_time := elapsed
     num_conflicts := outcome.num_conflicts
     num_branches := outcome.num_branches
     wall_time := outcome.wall_time
     relaxed_requirements := sch.relaxed_requirements
     relaxed_shifts := sch.relaxed_shifts
     relaxed_days_off := sch.relaxed_days_off
     valid_count := valid_schedules.length })

/-- Python `c in s` on a one-character separator: membership of the
character in the string. -/
def str_contains (s : String) (c : Char) : Bool :=
  s.data.contains c

/-- Character-list core of Python `str.split(sep)` for a one-character
separator: split at every occurrence, keeping empty pieces (so the result
is always non-empty). -/
def split_chars (sep : Char) : List Char → List (List Char)
  | [] => [[]]
  | c :: rest =>
    let r := split_chars sep rest
    if c == sep then [] :: r
    else
      match r with
      | [] => [[c]]
      | h :: t => (c :: h) :: t

/-- Python `s.split(sep)` for a one-character separator. -/
def str_split (s : String) (sep : Char) : List String :=
  (split_chars sep s.data).map (fun cs => String.mk cs)

/-- Python `s.split(sep, 1)` for a one-character separator occurring in
`s`: the characters before the first occurrence and the characters after
it. -/
def break_at (sep : Char) : List Char → List Char × List Char
  | [] => ([], [])
  | c :: rest =>
    if c == sep then ([], rest)
    else
      let r := break_at sep rest
      (c :: r.1, r.2)

/-- ASCII whitespace, as stripped by Python `str.strip()`. -/
def is_space (c : Char) : Bool :=
  c == ' ' || c == '\t' || c == '\n' || c == '\r'

/-- Python `s.strip()`: remove leading and trailing whitespace. -/
def str_strip (s : String) : String :=
  String.mk (((s.data.dropWhile is_space).reverse.dropWhile is_space).reverse)

/-- Decimal digit accumulator for `str_to_int?`. -/
def digits_to_nat (acc : Nat) : List Char → Option Nat
  | [] => some acc
  | c :: rest =>
    if c.isDigit then digits_to_nat (acc * 10 + (c.toNat - 48)) rest
    else none

/-- Python `int(s)` on an already-stripped string: an optional sign
followed by at least one decimal digit; anything else raises `ValueError`
(here: `none`). -/
def str_to_int? (s : String) : Option Int :=
  match s.data with
  | [] => none
  | '-' :: rest =>
    match rest with
    | [] => none
    | _ => (digits_to_nat 0 rest).map (fun n => -(n : Int))
  | '+' :: rest =>
    match rest with
    | [] => none
    | _ => (digits_to_nat 0 rest).map (fun n => (n : Int))
  | l => (digits_to_nat 0 l).map (fun n => (n : Int))

/-- One iteration of the per-day availability loop in
`SheetsManager.get_employees` (`src/data/sheets_manager.py`): entries
without a colon are skipped; the entry is split at its first colon, the
weekday token is converted with `int(...)` and a conversion failure
(`ValueError`) skips the entry; otherwise the shift tokens are split on
commas, stripped, and stored under the weekday key with no further
filtering. -/
def parse_day_entry (acc : List (Int × List String)) (entry : String) :
    List (Int × List String) :=
  if str_contains entry ':' then
    let day_str := String.mk (break_at ':' entry.data).1
    let shifts_str := String.mk (break_at ':' entry.data).2
    match str_to_int? (str_strip day_str) with
    | some day_num =>
      dict_insert acc day_num
        ((str_split shifts_str ',').map (fun t => str_strip t))
    | none => acc
  else acc

/-- The availability-string parsing of `SheetsManager.get_employees`:
the stripped cell either contains a colon (per-day form, a
semicolon-separated fold of `parse_day_entry`) or not (legacy form: the
comma-separated, stripped shift list is applied to every weekday 1–7). -/
def parse_availability (availability_str : String) :
    List (Int × List String) :=
  let s := str_strip availability_str
  if str_contains s ':' then
    (str_split s ';').foldl parse_day_entry []
  else
    (List.range 7).map (fun i =>
      ((i : Int) + 1, (str_split s ',').map (fun t => str_strip t)))

/-! ## Concrete instances used by counterexamples and witnesses -/

/-- Availability on every weekday 1–7 for all three shift times. -/
def all_week_availability : List (Int × List String) :=
  [(1, shift_times), (2, shift_times), (3, shift_times), (4, shift_times),
   (5, shift_times), (6, shift_times), (7, shift_times)]

/-- A part-time employee, no capabilities, fully available. -/
def C1emp : Employee :=
  { name := "A", is_leader := false, can_inject := false,
    available_shifts := all_week_availability, is_fulltime := false }

/-- A Monday-Morning requirement demanding one leader while `C1emp` (the
only employee) is not a leader. -/
def C1req : ShiftRequirement :=
  { day_of_week := 1, shift_time := "早", num_people := 1, num_leaders := 1,
    num_injectors := 0, num_leader_or_injector := 0 }

/-- A strict one-week problem whose only requirement demands a leader while
the roster has none. -/
def C1scheduler : ORToolsScheduler :=
  { employees := [C1emp], requirements := [C1req], time_off_requests := [],
    pre_assigned_shifts := [], start_date := 1, num_weeks := 1,
    max_time_seconds := 300, relaxed_requirements := false,
    relaxed_shifts := false, relaxed_days_off := false }

/-- Assign the only employee to the first template slot (Monday Morning)
and nothing else. -/
def C1assignment : Nat → Nat → Bool := fun e s => e == 0 && s == 0

/-- A one-week problem whose start date (ordinal 2) is a Tuesday. -/
def C2scheduler : ORToolsScheduler :=
  { employees := [], requirements := [], time_off_requests := [],
    pre_assigned_shifts := [], start_date := 2, num_weeks := 1,
    max_time_seconds := 300, relaxed_requirements := false,
    relaxed_shifts := false, relaxed_days_off := false }

/-- A successful solve outcome with the all-zero solution. -/
def C2outcome : SolverOutcome :=
  { status := CpStatus.Optimal, value := fun _ _ => false,
    num_conflicts := 0, num_branches := 0, wall_time := 0 }

/-- The roster for the unknown-reference scenario: one employee named
`"A"`. -/
def C3emp : Employee :=
  { name := "A", is_leader := false, can_inject := false,
    available_shifts := all_week_availability, is_fulltime := false }

/-- A pre-assignment naming an employee absent from the roster. -/
def C3ghost_pre : PreAssignedShift :=
  { employee_name := "Ghost", date := 1, shift_time := "早" }

/-- A time-off request naming an employee absent from the roster. -/
def C3ghost_request : TimeOffRequest :=
  { employee_name := "Ghost", date := 1, shift_time := "早" }

/-- The Monday-Morning slot of the first template week. -/
def C3shift : Shift := { date := 1, shift_time := "早", assigned_employees := [] }

/-- A full-time employee. -/
def C4emp : Employee :=
  { name := "F", is_leader := false, can_inject := false,
    available_shifts := all_week_availability, is_fulltime := true }

/-- A shift staffed by the full-time employee `C4emp`.  Ordinal 8 is a
Monday, so dates 8–12 share the week starting at 8. -/
def C4shift (d : Date) (t : String) : Shift :=
  { date := d, shift_time := t, assigned_employees := [C4emp] }

/-- Ten shifts in one week spread over only four distinct dates
(3 + 3 + 3 + 1). -/
def C4bad_schedule : Schedule :=
  { shifts :=
      [C4shift 8 "早", C4shift 8 "中", C4shift 8 "晚",
       C4shift 9 "早", C4shift 9 "中", C4shift 9 "晚",
       C4shift 10 "早", C4shift 10 "中", C4shift 10 "晚",
       C4shift 11 "早"] }

/-- Ten shifts in one week over exactly five distinct dates (2 per day). -/
def C4good_schedule : Schedule :=
  { shifts :=
      [C4shift 8 "早", C4shift 8 "中", C4shift 9 "早", C4shift 9 "中",
       C4shift 10 "早", C4shift 10 "中", C4shift 11 "早", C4shift 11 "中",
       C4shift 12 "早", C4shift 12 "中"] }

/-- An empty one-week problem for exercising the failure branch. -/
def C5scheduler : ORToolsScheduler :=
  { employees := [], requirements := [], time_off_requests := [],
    pre_assigned_shifts := [], start_date := 1, num_weeks := 1,
    max_time_seconds := 300, relaxed_requirements := false,
    relaxed_shifts := false, relaxed_days_off := false }

/-- An infeasible solve outcome with some solver statistics. -/
def C5outcome : SolverOutcome :=
  { status := CpStatus.Infeasible, value := fun _ _ => false,
    num_conflicts := 3, num_branches := 5, wall_time := 7 }

/-- An assignment matching exactly the first two slots of a day's three. -/
def C7assignment : Nat → Nat → Bool := fun _ s => s == 0 || s == 1


/-- Modelled from the claim's words (C4): for a full-time employee, in each
week (keyed by the date's Monday) where the schedule assigns the employee
at least one shift, the weekly shift count is exactly 10 (strict) or in
[8,10] (relaxed), and the number of distinct worked dates is at most 5
(strict) or at most 6 (relaxed); vacuously true for part-time. -/
def fulltime_weekly_claim (schedule : Schedule) (employee : Employee)
    (relaxed_shifts : Bool) (relaxed_days_off : Bool) : Bool :=
  if !employee.is_fulltime then true
  else
    (employee_week_keys schedule employee.name).all (fun wk =>
      let n := (employee_week_shifts schedule employee.name wk).length
      (if relaxed_shifts then decide (8 ≤ n ∧ n ≤ 10) else n == 10)
      && decide ((employee_week_days schedule employee.name wk).length
          ≤ if relaxed_days_off then 6 else 5))

/-! ## General helper lemmas -/

theorem weekday_lt_seven (d : Date) : weekday d < 7 :=
  Nat.mod_lt _ (by omega)

theorem weekday_le_self (d : Date) : weekday d ≤ d := by
  unfold weekday
  calc (d - 1) % 7 ≤ d - 1 := Nat.mod_le _ _
  _ ≤ d := Nat.sub_le _ _

theorem week_start_add_weekday (d : Date) : week_start d + weekday d = d := by
  unfold week_start
  exact Nat.sub_add_cancel (weekday_le_self d)

theorem snd_mem_of_mem_enumFrom {α : Type} {l : List α} {n : Nat}
    {p : Nat × α} (h : p ∈ l.enumFrom n) : p.2 ∈ l := by
  induction l generalizing n with
  | nil => simp [List.enumFrom] at h
  | cons a t ih =>
    simp only [List.enumFrom, List.mem_cons] at h
    rcases h with h | h
    · subst h; exact List.mem_cons_self _ _
    · exact List.mem_cons_of_mem _ (ih h)

theorem filter_enumFrom_eq_nil {α : Type} (P : α → Bool) (l : List α)
    (n : Nat) (h : ∀ a ∈ l, P a = false) :
    (l.enumFrom n).filter (fun p => P p.2) = [] := by
  induction l generalizing n with
  | nil => rfl
  | cons a t ih =>
    simp only [List.enumFrom, List.filter_cons]
    rw [h a (List.mem_cons_self _ _)]
    exact ih (n + 1) (fun b hb => h b (List.mem_cons_of_mem _ hb))

theorem sum_toNat_eq_countP {α : Type} (l : List α) (f : α → Bool) :
    (l.map (fun a => (f a).toNat)).sum = l.countP f := by
  induction l with
  | nil => rfl
  | cons a t ih =>
    simp only [List.map_cons, List.sum_cons, List.countP_cons, ih]
    cases hfa : f a
    · simp [hfa]
    · simp [hfa]
      omega

/-! ## Week arithmetic for the full-time weekly check -/

theorem mem_employee_week_days {schedule : Schedule} {name : String}
    {wk d : Date} (h : d ∈ employee_week_days schedule name wk) :
    week_start d = wk := by
  unfold employee_week_days employee_week_shifts at h
  rw [List.mem_dedup] at h
  rcases List.mem_map.mp h with ⟨s, hs, rfl⟩
  rcases List.mem_filter.mp hs with ⟨-, hpred⟩
  exact beq_iff_eq.mp hpred

theorem week_dates_nodup (wk : Date) :
    ((List.range 7).map (fun i => wk + i)).Nodup :=
  List.Nodup.map (fun i j h => by simpa using h) (List.nodup_range 7)

theorem mem_week_dates {wk d : Date} (h : week_start d = wk) :
    d ∈ (List.range 7).map (fun i => wk + i) := by
  refine List.mem_map.mpr ⟨weekday d, List.mem_range.mpr (weekday_lt_seven d), ?_⟩
  rw [← h]
  exact week_start_add_weekday d

theorem week_days_off_spec (schedule : Schedule) (name : String) (wk : Date) :
    week_days_off schedule name wk
      = 7 - (employee_week_days schedule name wk).length ∧
    (employee_week_days schedule name wk).length ≤ 7 := by
  have hWnodup : (employee_week_days schedule name wk).Nodup := by
    unfold employee_week_days
    exact List.nodup_dedup _
  have hperm : List.Perm
      (((List.range 7).map (fun i => wk + i)).filter
        (fun d => (employee_week_days schedule name wk).contains d))
      (employee_week_days schedule name wk) := by
    rw [List.perm_ext_iff_of_nodup (List.Nodup.filter _ (week_dates_nodup wk))
      hWnodup]
    intro d
    simp only [List.mem_filter, List.contains, List.elem_iff]
    constructor
    · rintro ⟨-, hd⟩
      exact hd
    · intro hd
      exact ⟨mem_week_dates (mem_employee_week_days hd), hd⟩
  have hsplit := List.length_eq_length_filter_add
    (l := (List.range 7).map (fun i => wk + i))
    (fun d => (employee_week_days schedule name wk).contains d)
  simp only [] at hsplit
  have hlen7 : ((List.range 7).map (fun i => wk + i)).length = 7 := by simp
  have hflen := hperm.length_eq
  constructor
  · unfold week_days_off
    omega
  · omega

/-! ## Claim theorems -/

/-- C10: every call to `relax_constraints` sets all three relaxation flags
to exactly its three arguments (each defaulting to `False` in the Python
signature, so a call that omits a flag passes `false`); consequently a
later call fully overrides an earlier one, and an omitted flag is reset to
`false` rather than retained. -/
theorem C10_relax_constraints_sets_all_flags (sch : ORToolsScheduler)
    (r s d r2 s2 d2 : Bool) :
    (relax_constraints sch r s d).relaxed_requirements = r
    ∧ (relax_constraints sch r s d).relaxed_shifts = s
    ∧ (relax_constraints sch r s d).relaxed_days_off = d
    ∧ relax_constraints (relax_constraints sch r s d) r2 s2 d2
        = relax_constraints sch r2 s2 d2
    ∧ (relax_constraints (relax_constraints sch r s d) r2 false false).relaxed_shifts
        = false
    ∧ (relax_constraints (relax_constraints sch r s d) r2 false false).relaxed_days_off
        = false := by
  refine ⟨rfl, rfl, rfl, rfl, rfl, rfl⟩

/-- C5: whenever the solver terminates with status `Infeasible` or
`Unknown`, `generate_schedules` returns the empty schedule list together
with diagnostics carrying the solver status name, the elapsed solve time,
the conflict and branch counts, the wall time, the three relaxation flags,
and `valid_count = 0`. -/
theorem C5_failure_returns_empty_with_diagnostics (sch : ORToolsScheduler)
    (outcome : SolverOutcome) (elapsed : Nat)
    (h : outcome.status = CpStatus.Infeasible
      ∨ outcome.status = CpStatus.Unknown) :
    generate_schedules sch outcome elapsed =
      ([],
       { solver_status := status_name outcome.status
         solve_time := elapsed
         num_conflicts := outcome.num_conflicts
         num_branches := outcome.num_branches
         wall_time := outcome.wall_time
         relaxed_requirements := sch.relaxed_requirements
         relaxed_shifts := sch.relaxed_shifts
         relaxed_days_off := sch.relaxed_days_off
         valid_count := 0 }) := by
  have hne : ¬(outcome.status = CpStatus.Optimal
      ∨ outcome.status = CpStatus.Feasible) := by
    rcases h with h | h <;> rw [h] <;> rintro (hc | hc) <;> exact
      CpStatus.noConfusion hc
  simp only [generate_schedules]
  rw [if_neg hne]
  rfl

/-- Witness for C5 at a concrete infeasible outcome. -/
theorem C5_failure_returns_empty_with_diagnostics_witness :
    generate_schedules C5scheduler C5outcome 11 =
      ([],
       { solver_status := "INFEASIBLE"
         solve_time := 11
         num_conflicts := 3
         num_branches := 5
         wall_time := 7
         relaxed_requirements := false
         relaxed_shifts := false
         relaxed_days_off := false
         valid_count := 0 }) :=
  C5_failure_returns_empty_with_diagnostics C5scheduler C5outcome 11
    (Or.inl rfl)

theorem get_shift_loop_eq_none_iff (shifts : List Shift) (d : Date)
    (t : String) :
    get_shift_loop shifts d t = none
      ↔ ∀ sh ∈ shifts, ¬(sh.date = d ∧ sh.shift_time = t) := by
  induction shifts with
  | nil => simp [get_shift_loop]
  | cons a rest ih =>
    rw [get_shift_loop]
    have hb : ((a.date == d && a.shift_time == t) = true)
        ↔ (a.date = d ∧ a.shift_time = t) := by
      simp
    by_cases hc : a.date = d ∧ a.shift_time = t
    · rw [if_pos (hb.mpr hc)]
      constructor
      · intro h0
        exact Option.noConfusion h0
      · intro hall
        exact absurd hc (hall a (List.mem_cons_self a rest))
    · rw [if_neg (fun hbt => hc (hb.mp hbt))]
      rw [ih]
      constructor
      · intro hall sh hsh
        rcases List.mem_cons.mp hsh with rfl | hsh
        · exact hc
        · exact hall sh hsh
      · intro hall sh hsh
        exact hall sh (List.mem_cons_of_mem _ hsh)

theorem get_shift_loop_first_match :
    ∀ (shifts : List Shift) (d : Date) (t : String) (sh : Shift),
    get_shift_loop shifts d t = some sh →
    sh.date = d ∧ sh.shift_time = t
    ∧ ∃ l1 l2, shifts = l1 ++ sh :: l2
        ∧ ∀ sh2 ∈ l1, ¬(sh2.date = d ∧ sh2.shift_time = t)
  | [], d, t, sh => fun h => Option.noConfusion h
  | a :: rest, d, t, sh => by
    intro h
    rw [get_shift_loop] at h
    have hb : ((a.date == d && a.shift_time == t) = true)
        ↔ (a.date = d ∧ a.shift_time = t) := by
      simp
    by_cases hc : a.date = d ∧ a.shift_time = t
    · rw [if_pos (hb.mpr hc)] at h
      have ha : a = sh := Option.some.inj h
      subst ha
      exact ⟨hc.1, hc.2, [], rest, rfl,
        fun sh2 hsh2 => absurd hsh2 (List.not_mem_nil sh2)⟩
    · rw [if_neg (fun hbt => hc (hb.mp hbt))] at h
      rcases get_shift_loop_first_match rest d t sh h with
        ⟨hd, ht, l1, l2, hsp, hfirst⟩
      refine ⟨hd, ht, a :: l1, l2, by rw [hsp]; rfl, ?_⟩
      intro sh2 hsh2
      rcases List.mem_cons.mp hsh2 with rfl | hsh2
      · exact hc
      · exact hfirst sh2 hsh2

/-- C9: `Schedule.get_shift` returns the first shift in the schedule's list
whose date and shift time both match, and returns `None` exactly when no
shift matches; being total, the lookup never raises on an absent slot. -/
theorem C9_get_shift_first_match_or_none (schedule : Schedule) (d : Date)
    (t : String) :
    (schedule.get_shift d t = none
      ↔ ∀ sh ∈ schedule.shifts, ¬(sh.date = d ∧ sh.shift_time = t))
    ∧ (∀ sh, schedule.get_shift d t = some sh →
        sh.date = d ∧ sh.shift_time = t
        ∧ ∃ l1 l2, schedule.shifts = l1 ++ sh :: l2
            ∧ ∀ sh2 ∈ l1, ¬(sh2.date = d ∧ sh2.shift_time = t)) :=
  ⟨get_shift_loop_eq_none_iff schedule.shifts d t,
   fun sh h => get_shift_loop_first_match schedule.shifts d t sh h⟩

/-- C6: the requirements check holds iff the shift's headcount equals
`num_people` exactly and the leader, injector, and leader-or-injector
counts each reach the corresponding minimum — taken whole when
`relaxed = false` and floor-halved (`// 2`, independently per category)
when `relaxed = true`. -/
theorem C6_validate_shift_requirements_iff (shift : Shift)
    (requirement : ShiftRequirement) (relaxed : Bool) :
    validate_shift_requirements shift requirement relaxed = true
      ↔ (shift.assigned_employees.length = requirement.num_people
        ∧ (if relaxed then requirement.num_leaders / 2
           else requirement.num_leaders) ≤ shift.count_leaders
        ∧ (if relaxed then requirement.num_injectors / 2
           else requirement.num_injectors) ≤ shift.count_injectors
        ∧ (if relaxed then requirement.num_leader_or_injector / 2
           else requirement.num_leader_or_injector)
            ≤ shift.count_leader_or_injector) := by
  unfold validate_shift_requirements
  cases relaxed <;>
    simp only [Bool.false_eq_true, if_false, if_true, bne_iff_ne] <;>
    split_ifs <;>
    simp_all [Nat.not_lt]

/-- C2 counterexample: ordinal 2 is a Tuesday (weekday 1), yet the core
performs no validation — `generate_month_template` builds the full 21-slot
template beginning on that Tuesday, and `generate_schedules` proceeds to
solve and return a schedule instead of failing with an `InvalidStart`
error (no such error path exists in the code). -/
theorem C2_counterexample :
    weekday C2scheduler.start_date ≠ 0
    ∧ (generate_month_template C2scheduler.start_date
        C2scheduler.num_weeks).head?
        = some { date := 2, shift_time := "早", assigned_employees := [] }
    ∧ (generate_month_template C2scheduler.start_date
        C2scheduler.num_weeks).length = 21
    ∧ (generate_schedules C2scheduler C2outcome 0).1.length = 1 := by
  refine ⟨by decide, by decide, by decide, by decide⟩

/-- C2 amended: the core never checks that `start_date` is a Monday.  For
every start date whatsoever — Monday or not — `generate_month_template`
totally builds the `num_weeks × 21` slot template whose first slot carries
`start_date` itself; snapping to the preceding Monday is done by the UI
caller before the core is invoked. -/
theorem C2_amended_no_monday_validation (d : Date) (w : Nat) :
    (generate_month_template d w).length = w * 21
    ∧ (generate_month_template d (w + 1)).head?
        = some { date := d, shift_time := "早", assigned_employees := [] } := by
  have hweek : ∀ (n : Nat),
      ((List.range 7).flatMap (fun day =>
        shift_times.map (fun st =>
          ({ date := d + 7 * n + day, shift_time := st,
             assigned_employees := [] } : Shift)))).length = 21 := by
    intro n
    rw [show List.range 7 = [0, 1, 2, 3, 4, 5, 6] from rfl]
    simp [shift_times]
  constructor
  · induction w with
    | zero => rfl
    | succ n ih =>
      have hstep : generate_month_template d (n + 1)
          = generate_month_template d n
            ++ (List.range 7).flatMap (fun day =>
                 shift_times.map (fun st =>
                   ({ date := d + 7 * n + day, shift_time := st,
                      assigned_employees := [] } : Shift))) := by
        simp only [generate_month_template]
        rw [List.range_succ, List.flatMap_append]
        simp
      rw [hstep, List.length_append, ih, hweek]
      omega
  · simp only [generate_month_template]
    rw [List.range_succ_eq_map, List.flatMap_cons]
    rw [show List.range 7 = [0, 1, 2, 3, 4, 5, 6] from rfl]
    simp [shift_times]

/-- C3 counterexample: a pre-assignment and a time-off request naming
`"Ghost"`, an employee absent from the one-employee roster, are silently
dropped rather than rejected: the pre-assignment contributes no pin to the
model at all, and the time-off request changes no availability — no
`UnknownEmployeeReference` (or any other) error path exists in the code. -/
theorem C3_counterexample :
    (C3emp.name == C3ghost_pre.employee_name) = false
    ∧ pre_assignment_pins [C3emp] (generate_month_template 1 1)
        [C3ghost_pre] = []
    ∧ validate_availability C3shift C3emp [C3ghost_request]
        = validate_availability C3shift C3emp [] := by
  refine ⟨by decide, by decide, by decide⟩

/-- C3 amended: references to unknown employees are silently ignored, not
fatal: a pre-assignment whose name matches no roster employee produces no
pinning constraint, and a time-off request naming someone other than the
employee under test never affects that employee's availability. -/
theorem C3_amended_unknown_references_ignored
    (employees : List Employee) (shifts : List Shift)
    (pre : PreAssignedShift) (sh : Shift) (emp : Employee)
    (request : TimeOffRequest) (tor : List TimeOffRequest) :
    ((∀ e ∈ employees, (e.name == pre.employee_name) = false) →
      pre_assignment_pins employees shifts [pre] = [])
    ∧ (request.employee_name ≠ emp.name →
      validate_availability sh emp (request :: tor)
        = validate_availability sh emp tor) := by
  constructor
  · intro hall
    unfold pre_assignment_pins
    cases hfs : (shifts.enum).find? (fun sp =>
        sp.2.date == pre.date && sp.2.shift_time == pre.shift_time) with
    | none => simp [hfs]
    | some sp =>
      have hfe : (employees.enum).find?
          (fun ep => ep.2.name == pre.employee_name) = none := by
        rw [List.find?_eq_none]
        intro p hp
        rw [hall p.2 (snd_mem_of_mem_enumFrom hp)]
        exact Bool.false_ne_true
      simp [hfs, hfe]
  · intro hne
    have hfalse : (request.employee_name == emp.name) = false := by
      simp [hne]
    simp only [validate_availability, List.any_cons, hfalse, Bool.false_and,
      Bool.false_or]

/-- Witness for C3 amended at the concrete ghost records. -/
theorem C3_amended_unknown_references_ignored_witness :
    pre_assignment_pins [C3emp] (generate_month_template 1 1)
      [C3ghost_pre] = []
    ∧ validate_availability C3shift C3emp [C3ghost_request]
      = validate_availability C3shift C3emp [] :=
  ⟨(C3_amended_unknown_references_ignored [C3emp]
      (generate_month_template 1 1) C3ghost_pre C3shift C3emp
      C3ghost_request []).1 (by decide),
   (C3_amended_unknown_references_ignored [C3emp]
      (generate_month_template 1 1) C3ghost_pre C3shift C3emp
      C3ghost_request []).2 (by decide)⟩

/-- C8 counterexample: parsing the per-day availability entry
`"1:早,XX"` stores the unknown shift label `"XX"` verbatim in the day's
list — unknown shift labels are retained, not discarded. -/
theorem C8_counterexample :
    parse_availability "1:早,XX" = [((1 : Int), ["早", "XX"])]
    ∧ shift_times.contains "XX" = false := by
  refine ⟨by decide, by decide⟩

/-- C8 amended: in the per-day form, an entry whose weekday token does not
convert with `int(...)` is ignored; in the legacy (no-colon) form the
comma-split, stripped shift list is applied identically to every weekday
1–7; and in the per-day form the stored shift list is exactly the
comma-split, stripped tokens — unknown labels included — with no
filtering. -/
theorem C8_amended_availability_parsing (acc : List (Int × List String))
    (entry s : String) (d : Int) :
    ((str_contains entry ':') = true →
      str_to_int? (str_strip (String.mk (break_at ':' entry.data).1)) = none →
      parse_day_entry acc entry = acc)
    ∧ ((str_contains (str_strip s) ':') = false →
      parse_availability s
        = (List.range 7).map (fun i =>
            ((i : Int) + 1,
             (str_split (str_strip s) ',').map (fun t => str_strip t))))
    ∧ ((str_contains entry ':') = true →
      str_to_int? (str_strip (String.mk (break_at ':' entry.data).1))
          = some d →
      parse_day_entry acc entry
        = dict_insert acc d
            ((str_split (String.mk (break_at ':' entry.data).2) ',').map
              (fun t => str_strip t))) := by
  refine ⟨?_, ?_, ?_⟩
  · intro h1 h2
    simp only [parse_day_entry, h1, if_true]
    rw [h2]
  · intro h1
    simp only [parse_availability, h1, Bool.false_eq_true, if_false]
  · intro h1 h2
    simp only [parse_day_entry, h1, if_true]
    rw [h2]

/-- Witness for C8 amended: a non-integer weekday token is skipped, a
legacy string is expanded to all seven weekdays, and a per-day entry with
an unknown label keeps the label. -/
theorem C8_amended_availability_parsing_witness :
    parse_day_entry [] "x:早" = []
    ∧ parse_availability "早,中"
      = [((1 : Int), ["早", "中"]), (2, ["早", "中"]), (3, ["早", "中"]),
         (4, ["早", "中"]), (5, ["早", "中"]), (6, ["早", "中"]),
         (7, ["早", "中"])]
    ∧ parse_day_entry [] "1:早,XX" = [((1 : Int), ["早", "XX"])] :=
  ⟨(C8_amended_availability_parsing [] "x:早" "早,中" 1).1
      (by decide) (by decide),
   (C8_amended_availability_parsing [] "x:早" "早,中" 1).2.1 (by decide),
   (C8_amended_availability_parsing [] "1:早,XX" "早,中" 1).2.2
      (by decide) (by decide)⟩

/-- C7: for any day group of the objective's date grouping with exactly 3
template slots, an assignment satisfying the two posted linking
constraints with bonus set to 1 has a daily sum of exactly 2 — the second
constraint reduces to `D ≤ 2`, so a 3-shift day can never receive the
bonus — and the maximized objective expression evaluates to 10 times the
number of bonus variables set to 1. -/
theorem C7_objective_bonus_encoding (shifts : List Shift)
    (x : Nat → Nat → Bool) (emp : Nat) (d : Date) (indices : List Nat)
    (entries : List (Nat × Date)) (bf : Nat → Date → Bool)
    (_hmem : (d, indices) ∈ shifts_by_date shifts)
    (hlen : indices.length = 3)
    (hsat : bonus_link_sat indices emp x true = true) :
    assigned_sum indices (fun s => x emp s) = 2
    ∧ objective_value entries bf
        = 10 * entries.countP (fun ent => bf ent.1 ent.2) := by
  constructor
  · simp only [bonus_link_sat, hlen, Bool.and_eq_true, decide_eq_true_eq,
      Bool.toNat_true] at hsat
    omega
  · simp only [objective_value, sum_toNat_eq_countP]
    omega

/-- Witness for C7 at Monday of the one-week template: the first day's
group has slots 0,1,2; assigning exactly slots 0 and 1 satisfies the
linking constraints with bonus 1 and the daily sum is 2. -/
theorem C7_objective_bonus_encoding_witness :
    assigned_sum [0, 1, 2] (fun s => C7assignment 0 s) = 2
    ∧ objective_value [(0, 1), (0, 2)] (fun _ d2 => d2 == 1)
        = 10 * ([(0, 1), (0, 2)].countP (fun ent => ent.2 == 1)) :=
  C7_objective_bonus_encoding (generate_month_template 1 1) C7assignment 0 1
    [0, 1, 2] [(0, 1), (0, 2)] (fun _ d2 => d2 == 1)
    (by decide) (by decide) (by decide)

theorem filter_enumFrom_pair_eq_nil {α : Type} (P : Nat × α → Bool)
    (l : List α) (n : Nat) (h : ∀ p : Nat × α, p.2 ∈ l → P p = false) :
    (l.enumFrom n).filter P = [] := by
  induction l generalizing n with
  | nil => rfl
  | cons a t ih =>
    simp only [List.enumFrom, List.filter_cons]
    rw [h (n, a) (List.mem_cons_self a t)]
    exact ih (n + 1) (fun p hp => h p (List.mem_cons_of_mem _ hp))

theorem filter_enum_pair_eq_nil {α : Type} (P : Nat × α → Bool) (l : List α)
    (h : ∀ p : Nat × α, p.2 ∈ l → P p = false) : l.enum.filter P = [] :=
  filter_enumFrom_pair_eq_nil P l 0 h

/-- C1 counterexample: with a roster containing no leader and a Monday
Morning requirement demanding `num_leaders = 1 > 0`, the strict constraint
model built by the solver is *not* infeasible by construction — the code
posts the leader-minimum constraint only when the leader pool is non-empty
(`if leader_assigned:`), so the exhibited assignment (the single part-time
employee works exactly the required Monday-Morning slot) satisfies every
posted constraint, and a correct solver would return a schedule rather
than `Infeasible`. -/
theorem C1_counterexample :
    (C1scheduler.employees.all (fun e => !e.is_leader)) = true
    ∧ C1req ∈ C1scheduler.requirements
    ∧ 0 < C1req.num_leaders
    ∧ C1scheduler.relaxed_requirements = false
    ∧ model_sat C1scheduler
        (generate_month_template C1scheduler.start_date C1scheduler.num_weeks)
        C1assignment (fun _ _ => false) = true := by
  refine ⟨by decide, by decide, by decide, by decide, by decide⟩

/-- C1 amended: when no roster employee carries a capability flag, the
corresponding minimum constraint is skipped entirely (it is guarded on a
non-empty candidate pool), so the slot's posted constraints are unchanged
by that minimum — a positive minimum over an empty pool does not make the
model infeasible. -/
theorem C1_amended_empty_pool_skips_minimum (employees : List Employee)
    (req : ShiftRequirement) (rx : Bool) (assigned : Nat → Bool)
    (n m k : Nat) :
    ((∀ e ∈ employees, e.is_leader = false) →
      slot_requirement_sat employees { req with num_leaders := n } rx assigned
        = slot_requirement_sat employees { req with num_leaders := 0 } rx
            assigned)
    ∧ ((∀ e ∈ employees, e.can_inject = false) →
      slot_requirement_sat employees { req with num_injectors := m } rx
          assigned
        = slot_requirement_sat employees { req with num_injectors := 0 } rx
            assigned)
    ∧ ((∀ e ∈ employees, e.is_leader = false ∧ e.can_inject = false) →
      slot_requirement_sat employees
          { req with num_leader_or_injector := k } rx assigned
        = slot_requirement_sat employees
            { req with num_leader_or_injector := 0 } rx assigned) := by
  refine ⟨?_, ?_, ?_⟩
  · intro h
    have hf : (employees.enum).filter (fun ep => ep.2.is_leader) = [] :=
      filter_enum_pair_eq_nil _ employees (fun p hp => h p.2 hp)
    simp only [slot_requirement_sat, hf, List.map_nil, List.isEmpty_nil,
      Bool.true_or]
  · intro h
    have hf : (employees.enum).filter (fun ep => ep.2.can_inject) = [] :=
      filter_enum_pair_eq_nil _ employees (fun p hp => h p.2 hp)
    simp only [slot_requirement_sat, hf, List.map_nil, List.isEmpty_nil,
      Bool.true_or]
  · intro h
    have hf : (employees.enum).filter
        (fun ep => ep.2.is_leader || ep.2.can_inject) = [] :=
      filter_enum_pair_eq_nil _ employees (fun p hp => by
        rw [(h p.2 hp).1, (h p.2 hp).2]
        rfl)
    simp only [slot_requirement_sat, hf, List.map_nil, List.isEmpty_nil,
      Bool.true_or]

/-- Witness for C1 amended: on the leaderless one-employee roster, raising
any capability minimum to 5 leaves the slot constraints unchanged. -/
theorem C1_amended_empty_pool_skips_minimum_witness :
    slot_requirement_sat [C1emp] { C1req with num_leaders := 5 } false
        (fun _ => false)
      = slot_requirement_sat [C1emp] { C1req with num_leaders := 0 } false
          (fun _ => false)
    ∧ slot_requirement_sat [C1emp] { C1req with num_injectors := 5 } false
        (fun _ => false)
      = slot_requirement_sat [C1emp] { C1req with num_injectors := 0 } false
          (fun _ => false)
    ∧ slot_requirement_sat [C1emp]
        { C1req with num_leader_or_injector := 5 } false (fun _ => false)
      = slot_requirement_sat [C1emp]
          { C1req with num_leader_or_injector := 0 } false (fun _ => false) :=
  ⟨(C1_amended_empty_pool_skips_minimum [C1emp] C1req false (fun _ => false)
      5 5 5).1 (by decide),
   (C1_amended_empty_pool_skips_minimum [C1emp] C1req false (fun _ => false)
      5 5 5).2.1 (by decide),
   (C1_amended_empty_pool_skips_minimum [C1emp] C1req false (fun _ => false)
      5 5 5).2.2 (by decide)⟩

/-- C4 counterexample: a full-time employee with ten weekly shifts spread
over only four distinct dates (3+3+3+1) satisfies the claim's reading
(count 10, distinct dates 4 ≤ 5) but fails the code's strict check, which
demands exactly 2 days off — i.e. exactly 5 distinct worked dates. -/
theorem C4_counterexample :
    validate_fulltime_constraints C4bad_schedule C4emp false false = false
    ∧ fulltime_weekly_claim C4bad_schedule C4emp false false = true := by
  refine ⟨by decide, by decide⟩

/-- C4 amended: the fulltime weekly check holds iff, in each week (keyed
by the date's Monday) holding at least one of the employee's shifts, the
weekly count is exactly 10 (strict) or in [8,10] (`relaxed_shifts`), and
the number of distinct worked dates is exactly 5 (strict; the code demands
exactly 2 days off out of the week's 7 dates) or at most 6
(`relaxed_days_off`); vacuously true for part-time employees. -/
theorem C4_amended_fulltime_weekly_iff (schedule : Schedule)
    (employee : Employee) (rs rd : Bool) :
    validate_fulltime_constraints schedule employee rs rd = true
      ↔ (employee.is_fulltime = true →
          ∀ wk ∈ employee_week_keys schedule employee.name,
            (if rs then
               8 ≤ (employee_week_shifts schedule employee.name wk).length
                 ∧ (employee_week_shifts schedule employee.name wk).length
                     ≤ 10
             else
               (employee_week_shifts schedule employee.name wk).length = 10)
            ∧ (if rd then
                 (employee_week_days schedule employee.name wk).length ≤ 6
               else
                 (employee_week_days schedule employee.name wk).length = 5)) := by
  cases hf : employee.is_fulltime with
  | false =>
    simp [validate_fulltime_constraints, hf]
  | true =>
    unfold validate_fulltime_constraints
    rw [hf, Bool.not_true, if_neg Bool.false_ne_true]
    rw [List.all_eq_true]
    simp only [eq_self_iff_true, true_implies]
    refine forall_congr' fun wk => imp_congr_right fun hwk => ?_
    obtain ⟨hoff, hle⟩ := week_days_off_spec schedule employee.name wk
    rw [hoff]
    cases rs <;> cases rd <;>
      simp only [Bool.and_eq_true, Bool.not_eq_true', beq_iff_eq,
        Bool.or_eq_false_iff, decide_eq_false_iff_not, decide_eq_true_eq,
        Bool.if_false_left, Bool.if_true_left, if_true, if_false,
        Bool.false_eq_true, Bool.true_eq_false] <;>
      omega

/-- Witness for C4 amended: ten shifts over exactly five distinct dates in
one week pass the strict check. -/
theorem C4_amended_fulltime_weekly_iff_witness :
    validate_fulltime_constraints C4good_schedule C4emp false false = true :=
  (C4_amended_fulltime_weekly_iff C4good_schedule C4emp false false).mpr
    (by decide)
